import Mathlib

/-!
Verification development for the import_sd workflow
(`src/scripts/import_sd/workflow.py`): the copy-queue and reorganization
engine.  Paths and names are modelled as lists of characters (Python `str`);
machine-external collaborators that are not part of the repository's `src/`
tree (metadata extraction, the queue container, checksum validation, the
bulk-copy subprocess) are modelled from the specification and marked as such.
-/

set_option maxRecDepth 16384

namespace ImageBackup

/-- Strings of the Python program, modelled as lists of characters. -/
abbrev Str := List Char

/-- Calendar date carried by `Photo.date` (a Python `datetime`): Python
restricts years to 1..9999 and months/days to two digits, so the four/two
digit zero-padded rendering used below is exact on that range. -/
structure PDate where
  y : Nat
  m : Nat
  d : Nat
  hy : y ≤ 9999 := by decide
  hm : m ≤ 99 := by decide
  hd : d ≤ 99 := by decide

/-- Last decimal digit of `n`, as a character. -/
def digitChar (n : Nat) : Char := Char.ofNat (48 + n % 10)

/-- Rendering of a zero-padded two-digit number (`%m` / `%d`). -/
def pad2 (n : Nat) : Str := [digitChar (n / 10), digitChar n]

/-- Rendering of a zero-padded four-digit number (`%Y` for datetime years). -/
def pad4 (n : Nat) : Str :=
  [digitChar (n / 1000), digitChar (n / 100), digitChar (n / 10), digitChar n]

/-- Rendering of `%Y%m%d` (workflow.py:668). -/
def fmtYMD8 (dt : PDate) : Str := pad4 dt.y ++ pad2 dt.m ++ pad2 dt.d

/-- Modelled from the spec: `photo.py` is not under `src/`.  The Metadata
Record (spec section 3) exposes the source path, lower-cased extension,
optional capture date, camera, lens, exposure fields, ISO, shutter speed,
sequence number and a content hash.  String-valued attributes are modelled
as the text they interpolate into the f-strings of `generate_name`; the
content hash stands for the file's content identity used by checksum
comparisons. -/
structure Photo where
  path : Str
  extension : Str
  date : Option PDate := none
  camera : Str := []
  lens : Str := []
  num : Str := []
  eb : Str := []
  ev : Str := []
  b : Str := []
  iso : Str := []
  ss : Str := []
  content : Str := []

/-- The optional `properties` dict accepted by `generate_name`
(workflow.py:647-658): a present key overrides the photo's attribute via
`properties.get(key, photo.attr)`. -/
structure Overrides where
  number : Option Str := none
  exposure_bias : Option Str := none
  exposure_value : Option Str := none
  brightness : Option Str := none
  iso : Option Str := none
  ss : Option Str := none
  lens : Option Str := none
  extension : Option Str := none
  date : Option (Option PDate) := none
  camera : Option Str := none

/-- The merged `props` dict built at workflow.py:647-658. -/
structure Props where
  num : Str
  eb : Str
  ev : Str
  b : Str
  iso : Str
  ss : Str
  lens : Str
  ext : Str
  date : Option PDate
  camera : Str

/-- Merge of the `properties` dict with the photo's attributes, the dict
taking priority (workflow.py:647-658). -/
def mergedProps (photo : Photo) (o : Overrides) : Props where
  num := o.number.getD photo.num
  eb := o.exposure_bias.getD photo.eb
  ev := o.exposure_value.getD photo.ev
  b := o.brightness.getD photo.b
  iso := o.iso.getD photo.iso
  ss := o.ss.getD photo.ss
  lens := o.lens.getD photo.lens
  ext := o.extension.getD photo.extension
  date := o.date.getD photo.date
  camera := o.camera.getD photo.camera

/-- Replacement of every `'.'` by `' '` (workflow.py:674,
`name.replace('.', ' ')`). -/
def dotToSpace (s : Str) : Str := s.map fun c => if c = '.' then ' ' else c

/-- Short name assembled at workflow.py:663:
`f'{num}_{eb}EB_{ev}EV_{b}B_{iso}ISO_{ss}SS'`. -/
def shortCore (p : Props) : Str :=
  p.num ++ "_".toList ++ p.eb ++ "EB_".toList ++ p.ev ++ "EV_".toList ++
    p.b ++ "B_".toList ++ p.iso ++ "ISO_".toList ++ p.ss ++ "SS".toList

/-- Full name assembled at workflow.py:665-671:
`f'{date}_{camera}_{num}_{eb}EB_{ev}EV_{b}B_{iso}ISO_{ss}SS_{lens}'` with a
missing date rendered as `00000000`. -/
def fullCore (p : Props) : Str :=
  (match p.date with
    | none => "00000000".toList
    | some dt => fmtYMD8 dt) ++
    "_".toList ++ p.camera ++ "_".toList ++ p.num ++ "_".toList ++
    p.eb ++ "EB_".toList ++ p.ev ++ "EV_".toList ++ p.b ++ "B_".toList ++
    p.iso ++ "ISO_".toList ++ p.ss ++ "SS_".toList ++ p.lens

/-- Name assembly of `generate_name` after the props merge
(workflow.py:660-676): the short or full core, decimal points replaced by
spaces, and `.{ext}` appended last (exempt from the replacement). -/
def generateNameProps (p : Props) (short : Bool) : Str :=
  dotToSpace (if short then shortCore p else fullCore p) ++ ".".toList ++ p.ext

/-- Exceptions the workflow can raise. -/
inductive Err where
  | attributeError
  | typeError
  | valueError
  | fileNotFound
  | notImplemented
  | keyboardInterrupt
deriving DecidableEq, Repr

/-- Embedding of `generate_name` (workflow.py:610-676) for a `Photo`
argument.  The `properties` parameter defaults to `None` in the source, yet
line 648 evaluates `properties.get(...)` unconditionally, so every call
without a properties dict raises `AttributeError` (`'NoneType' object has no
attribute 'get'`); with a dict the merged props are formatted by
`generateNameProps`. -/
def generateName (photo : Photo) (short : Bool) (properties : Option Overrides) :
    Except Err Str :=
  match properties with
  | none => .error .attributeError
  | some o => .ok (generateNameProps (mergedProps photo o) short)

/-- Configuration of a `Workflow` (workflow.py:44-78).  The three destination
paths are normalized with a trailing slash by their setters; their content is
arbitrary here. -/
structure Workflow where
  raw_path : Str
  jpg_path : Str
  backup_path : Str
  raw_extension : Str := "arw".toList
  dry_run : Bool := false

/-- Embedding of `bucket_path` (workflow.py:168-183):
`os.path.join(raw_path, 'Import Bucket')`; since `raw_path` carries a
trailing slash the join is plain concatenation. -/
def bucketPath (w : Workflow) : Str := w.raw_path ++ "Import Bucket".toList

/-- Remaining-length budget of `generate_path` (workflow.py:707):
`254 - len(raw_path) - len(extension) - 4 - 16`. -/
def pathBuffer (w : Workflow) (p : Photo) : Int :=
  254 - (w.raw_path.length : Int) - (p.extension.length : Int) - 4 - 16

/-- Year component of the dated folder (workflow.py:720-724): `0000` when the
capture date is absent. -/
def yearStr (p : Photo) : Str :=
  match p.date with
  | none => "0000".toList
  | some dt => pad4 dt.y

/-- Date component of the dated folder (workflow.py:720-725): `0000-00-00`
when the capture date is absent. -/
def dateStr (p : Photo) : Str :=
  match p.date with
  | none => "0000-00-00".toList
  | some dt => pad4 dt.y ++ "-".toList ++ pad2 dt.m ++ "-".toList ++ pad2 dt.d

/-- Final path assembly of `generate_path` (workflow.py:726):
`f'{raw_path}/{year}/{date}/{filename}'`. -/
def datedPath (w : Workflow) (p : Photo) (filename : Str) : Str :=
  w.raw_path ++ "/".toList ++ yearStr p ++ "/".toList ++ dateStr p ++
    "/".toList ++ filename

/-- Truncated filename of `generate_path` (workflow.py:717):
`f'{filename[:buffer]}---.{photo.extension}'` applied to the short name. -/
def truncName (w : Workflow) (p : Photo) (shortName : Str) : Str :=
  shortName.take (pathBuffer w p).toNat ++ "---.".toList ++ p.extension

/-- Length-selection logic of `generate_path` (workflow.py:706-726),
abstracted over the two generated names: `ValueError` when the budget is
below one, otherwise the full name if it fits the budget, else the short
name, else the truncated short name, placed under the dated folder.
`generate_path` as written never reaches this logic because its
`generate_name` calls pass `properties=None` and fail (see `generateName`);
the branch structure is transcribed here unchanged. -/
def pathLogic (w : Workflow) (p : Photo) (fullName shortName : Str) :
    Except Err Str :=
  if pathBuffer w p < 1 then .error .valueError
  else if (fullName.length : Int) ≤ pathBuffer w p then
    .ok (datedPath w p fullName)
  else if (shortName.length : Int) ≤ pathBuffer w p then
    .ok (datedPath w p shortName)
  else .ok (datedPath w p (truncName w p shortName))

/-- Embedding of `generate_path` (workflow.py:678-728) for a `Photo`
argument.  The first step, `filename = self.generate_name(photo)`
(line 704), calls `generate_name` with its default `properties=None` and
therefore raises `AttributeError` before any of the length logic runs; the
dead remainder is transcribed faithfully, including the second
`generate_name(photo, short=True)` call (line 713). -/
def generatePath (w : Workflow) (p : Photo) : Except Err Str :=
  match generateName p false none with
  | .error e => .error e
  | .ok fullName =>
    if pathBuffer w p < 1 then .error .valueError
    else if (fullName.length : Int) ≤ pathBuffer w p then
      .ok (datedPath w p fullName)
    else
      match generateName p true none with
      | .error e => .error e
      | .ok shortName =>
        if (shortName.length : Int) ≤ pathBuffer w p then
          .ok (datedPath w p shortName)
        else .ok (datedPath w p (truncName w p shortName))

/-- Modelled from the spec: `queue.py` is not under `src/`.  The Copy Queue
(spec section 3) is a mapping from destination-root path to the ordered
sequence of source files queued there; we record the ordered append events as
(destination root, source path) pairs.  The extra subpath components passed
to `append_parts` only place the file under the root and do not affect which
destination list the file joins. -/
abbrev CopyQueue := List (Str × Str)

/-- Append of one source file to the list of one destination root
(`Queue.append_parts`, modelled from the spec). -/
def appendParts (q : CopyQueue) (photo : Photo) (root : Str) : CopyQueue :=
  q ++ [(root, photo.path)]

/-- Number of occurrences of source path `x` in the list queued for
destination root `r`. -/
def queueCount (q : CopyQueue) (r x : Str) : Nat := q.count (r, x)

/-- Walk of `queue_files` (workflow.py:422-441) over the discovered files.
`isJpg` models `photo.is_jpg()` (recognized jpeg extensions; modelled from
the spec since `photo.py` is absent) and `fs` the archive filesystem (path
to content); `photo.matches(p)` is content-hash equality with the file at
`p` (Validator, modelled from the spec).  A raw-extension file first runs
`generate_path`, whose exception propagates; on success it is staged only
when the final path is missing or its content mismatches, and every
raw/jpeg file is then appended to the backup destination while an unknown
type is logged and skipped entirely (`continue`). -/
def queueFilesGo (w : Workflow) (isJpg : Str → Bool) (fs : Str → Option Str) :
    List Photo → CopyQueue → Except Err CopyQueue
  | [], q => .ok q
  | photo :: rest, q =>
    if photo.extension = w.raw_extension then
      match generatePath w photo with
      | .error e => .error e
      | .ok finalPath =>
        let q' :=
          if ¬ (fs finalPath).isSome ∨ ¬ (fs finalPath = some photo.content) then
            appendParts q photo (bucketPath w)
          else q
        queueFilesGo w isJpg fs rest (appendParts q' photo w.backup_path)
    else if isJpg photo.extension then
      queueFilesGo w isJpg fs rest
        (appendParts (appendParts q photo w.jpg_path) photo w.backup_path)
    else
      queueFilesGo w isJpg fs rest q

/-- Embedding of `queue_files` (workflow.py:378-444). -/
def queueFiles (w : Workflow) (isJpg : Str → Bool) (fs : Str → Option Str)
    (files : List Photo) : Except Err CopyQueue :=
  queueFilesGo w isJpg fs files []

/-- Embedding of the `rsync` retry loop (workflow.py:312-333).  `attempt i`
models the exit status of the i-th `subprocess.check_call`; a
`CalledProcessError` is caught inside the loop, so failure is reported as a
return value, never raised.  `MAX_RETRIES` comes from the config module,
which is not under `src/`, and is kept as a parameter (spec section 4.4:
"a fixed maximum attempt count").  The result pairs the boolean outcome
with the number of external invocations performed. -/
def rsyncGo (attempt : Nat → Bool) : Nat → Nat → Bool × Nat
  | _, 0 => (false, 0)
  | i, n + 1 =>
    if attempt i then (true, 1)
    else
      let r := rsyncGo attempt (i + 1) n
      (r.1, r.2 + 1)

/-- Embedding of `Workflow.rsync` (workflow.py:312-333); see `rsyncGo`. -/
def rsync (attempt : Nat → Bool) (maxRetries : Nat) : Bool × Nat :=
  rsyncGo attempt 0 maxRetries

/-- Copy backends selectable by `copy_from_list` (`CopyOperation`, modelled
from the spec since `operations.py` is not under `src/`). -/
inductive CopyOperation where
  | teracopy
  | rsync
deriving DecidableEq

/-- Environment of one list-based copy: existence of the list file, the
external copy's exit status, the post-copy checksum validation outcome
(Validator, modelled from the spec) and the operator's answer to
`ask_user_continue` (which raises `KeyboardInterrupt` on refusal). -/
structure CopyEnv where
  fsExists : Str → Bool
  extCopyOk : Bool
  checksumsOk : Bool
  userContinues : Bool

/-- Embedding of `teracopy_from_list` (workflow.py:355-376): a missing list
file raises `FileNotFoundError` before any external invocation; otherwise
exactly one external invocation happens and a `CalledProcessError` is caught
and reported as `False`.  Returns (outcome, external invocations). -/
def teracopyFromList (env : CopyEnv) (listPath : Str) : Except Err Bool × Nat :=
  if env.fsExists listPath then (.ok env.extCopyOk, 1)
  else (.error .fileNotFound, 0)

/-- Embedding of `copy_from_list` (workflow.py:263-310).  Operation dispatch
comes first: the rsync backend raises `NotImplementedError` (line 289); then
dry-run mode raises `NotImplementedError` (line 295) before `perform_copy`
is invoked; afterwards a copy failure or checksum failure consults
`ask_user_continue`, which raises `KeyboardInterrupt` when the operator
declines, and the function returns the conjunction of both successes. -/
def copyFromList (w : Workflow) (env : CopyEnv) (listPath : Str)
    (op : CopyOperation) : Except Err Bool × Nat :=
  match op with
  | .rsync => (.error .notImplemented, 0)
  | .teracopy =>
    if w.dry_run then (.error .notImplemented, 0)
    else
      match teracopyFromList env listPath with
      | (.error e, n) => (.error e, n)
      | (.ok copied, n) =>
        if copied = false ∧ env.userContinues = false then
          (.error .keyboardInterrupt, n)
        else if env.checksumsOk = false ∧ env.userContinues = false then
          (.error .keyboardInterrupt, n)
        else (.ok (copied && env.checksumsOk), n)

/-- Candidate name tried by the collision loop of `organize_files`
(workflow.py:550): `f'{mismatched_file_path} ({i})'` — the suffix is
appended after the whole colliding path, extension included. -/
def disCand (base : Str) (i : Nat) : Str :=
  base ++ " (".toList ++ (toString i).toList ++ ")".toList

/-- Collision loop of `organize_files` (workflow.py:549-552): try ` (1)` up
to ` (999)` and stop at the first candidate that does not exist; when no
candidate is free the loop leaves the ` (999)` candidate, which the caller
then rejects. -/
def findDisambig (occupied : Str → Bool) (base : Str) : Str :=
  match (List.range' 1 999).find? (fun i => ! occupied (disCand base i)) with
  | some i => disCand base i
  | none => disCand base 999

/-- Effect of `os.rename` on the modelled filesystem. -/
def renameFS (fs : Str → Option Str) (src dst : Str) : Str → Option Str :=
  fun p => if p = dst then fs src else if p = src then none else fs p

/-- Walk of `organize_files` (workflow.py:509-568) over the staged files,
threading the archive filesystem through the renames.  Every file first runs
`generate_path`, which raises `AttributeError` in the program as written
(see `generateName`), so the collision logic below is dead code there; it is
transcribed faithfully.  `photoOf` models metadata extraction
(`Photo(file_path)`); `compare_checksums` is content equality (Validator,
modelled from the spec). -/
def organizeFilesGo (w : Workflow) (photoOf : Str → Photo) :
    List Str → (Str → Option Str) → List (Str × Option Str) →
    Except Err (List (Str × Option Str))
  | [], _, res => .ok res
  | f :: rest, fs, res =>
    match generatePath w (photoOf f) with
    | .error e => .error e
    | .ok newPath =>
      if (fs newPath).isSome then
        if fs f = fs newPath then
          organizeFilesGo w photoOf rest fs (res ++ [(f, some newPath)])
        else
          let cand := findDisambig (fun s => (fs s).isSome) newPath
          if (fs cand).isSome then
            organizeFilesGo w photoOf rest fs (res ++ [(f, none)])
          else
            let fs' := if w.dry_run then fs else renameFS fs f cand
            organizeFilesGo w photoOf rest fs' (res ++ [(f, some cand)])
      else
        let fs' := if w.dry_run then fs else renameFS fs f newPath
        organizeFilesGo w photoOf rest fs' (res ++ [(f, some newPath)])

/-- Embedding of `organize_files` (workflow.py:509-568).  `dirsExist` models
the existence check on the bucket and raw paths (line 520), whose failure
raises `FileNotFoundError`. -/
def organizeFiles (w : Workflow) (photoOf : Str → Photo) (dirsExist : Bool)
    (fs : Str → Option Str) (files : List Str) :
    Except Err (List (Str × Option Str)) :=
  if dirsExist then organizeFilesGo w photoOf files fs []
  else .error .fileNotFound

/-- Environment of one `run` invocation: path validation results, the
discovered files, and the per-destination outcome of the copy phase (list
write, external copy, checksum validation and operator prompts folded into
one `Except` result per destination root). -/
structure RunEnv where
  sdPath : Str
  isDir : Str → Bool
  isWriteable : Str → Bool
  isJpg : Str → Bool
  fs : Str → Option Str
  files : List Photo
  copyResult : Str → Except Err Bool

/-- Destination roots of the queue, in first-appearance order
(`queue.get_queue()`, modelled from the spec: one entry per destination). -/
def destRoots (q : CopyQueue) : List Str := (q.map Prod.fst).dedup

/-- Copy phase of `run` (workflow.py:228-236): every destination is
attempted, failures are counted into the errors list, and an exception from
`copy_from_list` propagates. -/
def runCopies (copyResult : Str → Except Err Bool) :
    List Str → Nat → Except Err Nat
  | [], errs => .ok errs
  | d :: rest, errs =>
    match copyResult d with
    | .error e => .error e
    | .ok true => runCopies copyResult rest errs
    | .ok false => runCopies copyResult rest (errs + 1)

/-- Embedding of `run` (workflow.py:197-261).  Invalid or unwritable paths
return `False` with no side effects; then the queue is built and each
destination copied.  Line 239 then executes
`results = self.organize_files(self.bucket_path)`, but `organize_files`
(line 509) accepts no positional argument, so Python raises `TypeError` at
that call: every execution reaching the reorganize stage stops with that
exception and the error aggregation and final checksum validation below it
(lines 245-261) are unreachable. -/
def run (w : Workflow) (env : RunEnv) : Except Err Bool :=
  if ¬ ([env.sdPath, w.raw_path, w.jpg_path, w.backup_path].all env.isDir) then
    .ok false
  else if ¬ ([w.raw_path, w.jpg_path, w.backup_path].all env.isWriteable) then
    .ok false
  else
    match queueFiles w env.isJpg env.fs env.files with
    | .error e => .error e
    | .ok q =>
      match runCopies env.copyResult (destRoots q) 0 with
      | .error e => .error e
      | .ok _errs => .error .typeError

/-- Decimal digit test (`\d` over filenames). -/
def isDigitCh (c : Char) : Bool := c.isDigit

/-- Word-character test (`\w`). -/
def isWordCh (c : Char) : Bool := c.isAlphanum || c = '_'

/-- Literal character of the pattern; consumes it or fails. -/
def pChar (c : Char) : Str → Option Str
  | [] => none
  | x :: xs => if x = c then some xs else none

/-- Literal string of the pattern. -/
def pLit : Str → Str → Option Str
  | [], s => some s
  | c :: cs, s =>
    match pChar c s with
    | some r => pLit cs r
    | none => none

/-- Exactly `n` characters of class `p` (`\d{8}`). -/
def pCount (p : Char → Bool) : Nat → Str → Option Str
  | 0, s => some s
  | _ + 1, [] => none
  | n + 1, c :: cs => if p c then pCount p n cs else none

/-- Greedy `p+`.  Safe without backtracking here: every use in the pattern
is followed by a character the class cannot match. -/
def pPlus (p : Char → Bool) : Str → Option Str
  | [] => none
  | c :: cs => if p c then some (cs.dropWhile p) else none

/-- Greedy `p{3,}`; same non-backtracking justification as `pPlus`. -/
def pMin3 (p : Char → Bool) (s : Str) : Option Str :=
  if 3 ≤ (s.takeWhile p).length then some (s.dropWhile p) else none

/-- Committed optional group `(...)?`.  Safe without backtracking here: in
every use, when the group succeeds, the character that follows it in the
input cannot start the expression that follows the group, so the regex
engine could not succeed through the empty alternative either. -/
def pOpt (g : Str → Option Str) (s : Str) : Str :=
  match g s with
  | some r => r
  | none => s

/-- Character class such as `[. ]`. -/
def pSet (cs : List Char) : Str → Option Str
  | [] => none
  | x :: xs => if x ∈ cs then some xs else none

/-- Absence of newlines (what `.` can match in `.*`). -/
def noNewline (s : Str) : Bool := s.all fun c => c ≠ '\n'

/-- Tail `.*\.arw$` of the pattern: the remainder must end in `.arw`
(or `.arw` plus one final newline, which `$` also accepts) with no newline
inside the `.*` part. -/
def pTailDotStarArw (s : Str) : Bool :=
  (".arw".toList.isSuffixOf s && noNewline (s.take (s.length - 4))) ||
    (".arw\n".toList.isSuffixOf s && noNewline (s.take (s.length - 5)))

/-- First capture group `(\d{3,}|unknown)`: at least three digits, else the
literal `unknown`; the alternatives start with disjoint characters, so the
first-match choice is exact.  Returns (captured text, remainder). -/
def pGroupNum (s : Str) : Option (Str × Str) :=
  match pMin3 isDigitCh s with
  | some r => some (s.take (s.length - r.length), r)
  | none =>
    match pLit "unknown".toList s with
    | some r => some ("unknown".toList, r)
    | none => none

/-- Fragment `(\d+( \d+))?` of the old-format pattern. -/
def pOptNumPair (s : Str) : Str :=
  pOpt (fun t =>
    (pPlus isDigitCh t).bind fun t =>
      (pChar ' ' t).bind fun t => pPlus isDigitCh t) s

/-- Fragment `( \d+)?` of the old-format pattern. -/
def pOptSpaceNum (s : Str) : Str :=
  pOpt (fun t => (pChar ' ' t).bind fun t => pPlus isDigitCh t) s

/-- Fragment `([. ]\d+)?` of the old-format pattern. -/
def pOptFracNum (s : Str) : Str :=
  pOpt (fun t => (pSet ['.', ' '] t).bind fun t => pPlus isDigitCh t) s

/-- Fragment `--?\d+` of the old-format pattern: a dash, an optional second
dash, then digits. -/
def pDashNum (s : Str) : Option Str :=
  (pChar '-' s).bind fun s => pPlus isDigitCh (pOpt (pChar '-') s)

/-- Fragment `\d{8}-\w+-(\d{3,}|unknown)-` of the old-format pattern,
returning the capture of the first group and the remainder. -/
def oldFormatHead (s : Str) : Option (Str × Str) :=
  (pCount isDigitCh 8 s).bind fun s =>
    (pChar '-' s).bind fun s =>
      (pPlus isWordCh s).bind fun s =>
        (pChar '-' s).bind fun s =>
          (pGroupNum s).bind fun gs =>
            (pChar '-' gs.2).map fun s => (gs.1, s)

/-- Fragment `(\d+( \d+))?--?\d+( \d+)?--?\d+([. ]\d+)? EV` of the
old-format pattern. -/
def oldFormatExposure (s : Str) : Option Str :=
  (pDashNum (pOptNumPair s)).bind fun s =>
    (pDashNum (pOptSpaceNum s)).bind fun s =>
      pLit " EV".toList (pOptFracNum s)

/-- Fragment `--?\d+([. ]\d+)B-ISO \d+-` of the old-format pattern (the
group before `B` is not optional there). -/
def oldFormatBrightnessIso (s : Str) : Option Str :=
  (pDashNum s).bind fun s =>
    (pSet ['.', ' '] s).bind fun s =>
      (pPlus isDigitCh s).bind fun s =>
        (pLit "B-ISO ".toList s).bind fun s =>
          (pPlus isDigitCh s).bind fun s => pChar '-' s

/-- Matcher for the old-format pattern of `update_format`
(workflow.py:579), the part after the leading `^` anchor:
`\d{8}-\w+-(\d{3,}|unknown)-(\d+( \d+))?--?\d+( \d+)?--?\d+([. ]\d+)? EV--?\d+([. ]\d+)B-ISO \d+-.*\.arw$`.
Returns the text captured by the first group on success. -/
def oldFormatAfterStart (s : Str) : Option Str :=
  (oldFormatHead s).bind fun gs =>
    (oldFormatExposure gs.2).bind fun s =>
      (oldFormatBrightnessIso s).bind fun s =>
        if pTailDotStarArw s then some gs.1 else none

/-- Semantics of `old_format_regex.match(filename, pos)` as called at
workflow.py:589.  `Pattern.match(s, pos)` attempts the match at index `pos`,
but without the MULTILINE flag the `^` anchor matches only at the real
beginning of the string, so any positive `pos` fails immediately.  The call
site passes `re.IGNORECASE` — whose integer value is 2 — as `pos`, so the
flag is never applied and every match is attempted at index 2. -/
def oldFormatRegexMatch (s : Str) (pos : Nat) : Option Str :=
  if pos = 0 then oldFormatAfterStart (s.drop pos) else none

/-- The empty `properties` dict. -/
def emptyOverrides : Overrides := {}

/-- The `properties={'number': number}` dict passed at workflow.py:594. -/
def numberOverride (n : Str) : Overrides := { number := some n }

/-- Walk of `update_format` (workflow.py:586-606) over the (directory,
filename) pairs produced by `os.walk(raw_path)`.  A filename matching the
old-format pattern is renamed via `generate_name(path,
properties={'number': number})` — which constructs `Photo(path,
number=number)` through `photoOf` — and `results[path]` is recorded before
the clobber check, so even a skipped rename stays in the mapping; the
clobber check and the rename itself do not alter the returned mapping. -/
def updateFormatGo (w : Workflow) (photoOf : Str → Photo)
    (fsExists : Str → Bool) :
    List (Str × Str) → List (Str × Str) → Except Err (List (Str × Str))
  | [], res => .ok res
  | (root, filename) :: rest, res =>
    match oldFormatRegexMatch filename 2 with
    | none => updateFormatGo w photoOf fsExists rest res
    | some number =>
      let path := root ++ "/".toList ++ filename
      match generateName { photoOf path with num := number } false
          (some (numberOverride number)) with
      | .error e => .error e
      | .ok newName =>
        let res' := res ++ [(path, root ++ "/".toList ++ newName)]
        if fsExists newName then updateFormatGo w photoOf fsExists rest res'
        else updateFormatGo w photoOf fsExists rest res'

/-- Embedding of `update_format` (workflow.py:570-608).  `rawPathExists`
models the existence check on `raw_path` (line 582), whose failure raises
`FileNotFoundError`. -/
def updateFormat (w : Workflow) (photoOf : Str → Photo) (rawPathExists : Bool)
    (fsExists : Str → Bool) (entries : List (Str × Str)) :
    Except Err (List (Str × Str)) :=
  if rawPathExists then updateFormatGo w photoOf fsExists entries []
  else .error .fileNotFound

/-- Per-file contribution to the count of queue entry `e`, used to reason
about `queueFilesGo`: a jpeg file adds one entry under the jpg root and one
under the backup root; an unknown type adds nothing (a raw file aborts the
walk, so its contribution never materializes). -/
def contrib (w : Workflow) (isJpg : Str → Bool) (p : Photo) (e : Str × Str) :
    Nat :=
  if p.extension = w.raw_extension then 0
  else if isJpg p.extension = true then
    (if (w.jpg_path, p.path) = e then 1 else 0) +
      (if (w.backup_path, p.path) = e then 1 else 0)
  else 0

/-- Recognizer of jpeg extensions used by the concrete fixtures below. -/
def isJpgStd : Str → Bool := fun e => e == "jpg".toList

/-- Concrete workflow fixture with short destination roots. -/
def wStd : Workflow :=
  { raw_path := "R:/".toList, jpg_path := "P:/".toList,
    backup_path := "S:/".toList }

/-- Concrete workflow fixture whose raw path is 230 bytes long, so that the
length budget of `generate_path` is exactly one. -/
def wC1 : Workflow :=
  { raw_path := "R:/".toList ++ List.replicate 227 'x',
    jpg_path := "P:/".toList, backup_path := "S:/".toList }

/-- Concrete photo fixture with a raw extension and no metadata. -/
def pC1 : Photo := { path := "JAM_0001.arw".toList, extension := "arw".toList }

/-- Concrete full-name input for the length logic, eleven bytes long. -/
def fullC1 : Str := "F0123456789".toList

/-- Concrete short-name input for the length logic, seven bytes long. -/
def shortC1 : Str := "S012345".toList

/-- Concrete run environment in which every stage succeeds: all paths valid
and writable, an empty source volume, and every destination copy ok. -/
def envC2 : RunEnv :=
  { sdPath := "I:/".toList, isDir := fun _ => true,
    isWriteable := fun _ => true, isJpg := isJpgStd, fs := fun _ => none,
    files := [], copyResult := fun _ => .ok true }

/-- Concrete raw-extension photo on the source volume. -/
def pC6 : Photo :=
  { path := "I:/DCIM/100/JAM_0001.arw".toList, extension := "arw".toList,
    content := "a".toList }

/-- Concrete photo fixture with exposure metadata and no camera/lens/date. -/
def pC4 : Photo :=
  { path := "JAM_1234.arw".toList, extension := "arw".toList,
    num := "1234".toList, eb := "-2".toList, ev := "10".toList,
    b := "8".toList, iso := "800".toList, ss := "500".toList }

/-- Variant of `pC4` that differs only in date, camera and lens. -/
def pC4' : Photo :=
  { pC4 with
    camera := "a7r4".toList
    lens := "SAMYANG 12mm".toList
    date := some { y := 2023, m := 8, d := 5 } }

/-- Concrete copy environment whose list file does not exist. -/
def envC9 : CopyEnv :=
  { fsExists := fun _ => false, extCopyOk := true, checksumsOk := true,
    userContinues := true }

/-- Concrete filename in the documented old format (workflow.py:574). -/
def filenameC10 : Str :=
  "20230805-a7r4-1935--7-10 EV-8 27B-ISO 800-SAMYANG AF 12mm F2 0.arw".toList

/-- Concrete metadata extractor for fixtures. -/
def photoOfStd : Str → Photo :=
  fun p => { path := p, extension := "arw".toList }

/-- Concrete canonical path already occupied during reorganization. -/
def baseC3 : Str := "20230805_a7r4_0001.arw".toList

/-- Occupancy in which only the canonical path exists. -/
def occC3 : Str → Bool := fun s => s == baseC3

/-- Occupancy in which the canonical path and its first candidate exist. -/
def occC3' : Str → Bool := fun s => s == baseC3 || s == disCand baseC3 1

/-- Concrete jpeg photo on the source volume. -/
def pJpg5 : Photo :=
  { path := "I:/DCIM/100/A0001.jpg".toList, extension := "jpg".toList }

/-- Concrete unknown-type photo on the source volume. -/
def pUnk5 : Photo :=
  { path := "I:/DCIM/100/A0002.xyz".toList, extension := "xyz".toList }

/-- Queue produced by `queue_files` on `[pJpg5, pUnk5]` under `wStd`. -/
def qC5 : CopyQueue :=
  [("P:/".toList, pJpg5.path), ("S:/".toList, pJpg5.path)]

lemma generatePath_attrErr (w : Workflow) (p : Photo) :
    generatePath w p = .error .attributeError := rfl

lemma dot_not_mem_dotToSpace (s : Str) : '.' ∉ dotToSpace s := by
  intro hmem
  rw [dotToSpace, List.mem_map] at hmem
  obtain ⟨c, _, hc⟩ := hmem
  by_cases h : c = '.' <;> simp [h] at hc

lemma generateNameProps_decomp (props : Props) (short : Bool) :
    ∃ core, generateNameProps props short = dotToSpace core ++ '.' :: props.ext := by
  refine ⟨if short then shortCore props else fullCore props, ?_⟩
  rw [generateNameProps, List.append_assoc]
  rfl

/-- C7: for every input photo and override dict, every name returned by
`generate_name` is a dot-free core followed by a single `'.'` and the merged
extension, so no literal `'.'` survives before the final extension
separator (the dot-replacement at workflow.py:674 runs before the extension
is appended at line 676). -/
theorem c7_generate_name_no_dots (p : Photo) (short : Bool) (o : Overrides) :
    ∃ n, generateName p short (some o) = .ok (n ++ '.' :: (mergedProps p o).ext) ∧
      '.' ∉ n := by
  obtain ⟨core, hc⟩ := generateNameProps_decomp (mergedProps p o) short
  exact ⟨dotToSpace core, by rw [generateName, hc], dot_not_mem_dotToSpace core⟩

lemma rsyncGo_all_fail (attempt : Nat → Bool) (h : ∀ i, attempt i = false) :
    ∀ n i, rsyncGo attempt i n = (false, n) := by
  intro n
  induction n with
  | zero => intro i; rfl
  | succ k ih => intro i; simp [rsyncGo, h i, ih (i + 1)]

/-- C8: when every external invocation fails, the `rsync` retry loop invokes
the external mechanism exactly `maxRetries` times and returns `false` as a
value (the `CalledProcessError` of each attempt is caught inside the loop,
so nothing is raised).  `MAX_RETRIES` lives in the config module outside
`src/`, so the bound is kept as a parameter. -/
theorem c8_rsync_retries (attempt : Nat → Bool) (maxRetries : Nat)
    (h : ∀ i, attempt i = false) :
    rsync attempt maxRetries = (false, maxRetries) := by
  simpa [rsync] using rsyncGo_all_fail attempt h maxRetries 0

/-- Witness for C8 at a concrete always-failing executor and bound three. -/
theorem c8_rsync_retries_witness :
    rsync (fun _ => false) 3 = (false, 3) :=
  c8_rsync_retries (fun _ => false) 3 (fun _ => rfl)

/-- C9: list-based copy fails before any external invocation both in
dry-run mode (list-based dry-run raises `NotImplementedError`) and when the
list file does not exist (`FileNotFoundError`); in both cases the external
invocation count is zero. -/
theorem c9_copy_fail_fast (w : Workflow) (env : CopyEnv) (listPath : Str)
    (h : w.dry_run = true ∨ env.fsExists listPath = false) :
    (∃ e, (copyFromList w env listPath .teracopy).1 = .error e) ∧
    (copyFromList w env listPath .teracopy).2 = 0 := by
  by_cases hd : w.dry_run = true
  · simp [copyFromList, hd]
  · rcases h with h | h
    · exact absurd h hd
    · simp [copyFromList, hd, teracopyFromList, h]

/-- Witness for C9 at a concrete missing list file and a concrete dry-run
workflow. -/
theorem c9_copy_fail_fast_witness :
    ((∃ e, (copyFromList wStd envC9 "list.txt".toList .teracopy).1 = .error e) ∧
      (copyFromList wStd envC9 "list.txt".toList .teracopy).2 = 0) ∧
    ((∃ e, (copyFromList { wStd with dry_run := true } envC9
        "list.txt".toList .teracopy).1 = .error e) ∧
      (copyFromList { wStd with dry_run := true } envC9
        "list.txt".toList .teracopy).2 = 0) :=
  ⟨c9_copy_fail_fast wStd envC9 "list.txt".toList (Or.inr rfl),
    c9_copy_fail_fast { wStd with dry_run := true } envC9 "list.txt".toList
      (Or.inl rfl)⟩

/-- C2 (code bug): in an environment where every stage succeeds — all four
paths valid, the three destinations writable, an empty source volume, every
per-destination copy ok — `run` does not return `True`: it stops with the
`TypeError` raised by `self.organize_files(self.bucket_path)` (line 239),
because `organize_files` (line 509) takes no positional argument. -/
theorem c2_run_type_error : run wStd envC2 = .error .typeError := rfl

/-- C6 (code bug): on a source volume holding one file with the configured
raw extension, `queue_files` raises `AttributeError` out of
`generate_path → generate_name(properties=None)` (line 431 calling line
648) before the exists/matches skip rule can run, so no queue is returned
at all. -/
theorem c6_queue_raw_crash :
    queueFiles wStd isJpgStd (fun _ => none) [pC6] = .error .attributeError :=
  rfl

lemma oldFormatRegexMatch_at_two (s : Str) : oldFormatRegexMatch s 2 = none := by
  simp [oldFormatRegexMatch]

lemma updateFormatGo_skips (w : Workflow) (photoOf : Str → Photo)
    (fsExists : Str → Bool) :
    ∀ (entries : List (Str × Str)) (res : List (Str × Str)),
      updateFormatGo w photoOf fsExists entries res = .ok res := by
  intro entries
  induction entries with
  | nil => intro res; rfl
  | cons e rest ih =>
    intro res
    obtain ⟨root, filename⟩ := e
    simp [updateFormatGo, oldFormatRegexMatch_at_two, ih]

/-- C10: `update_format` passes `re.IGNORECASE` (integer value 2) as the
`pos` argument of `Pattern.match`, so each filename is matched starting at
index 2 where the `^`-anchored pattern can never succeed; consequently no
filename — in particular none in the documented old format, which starts
with an eight-digit date — is ever matched, and the returned result mapping
is always empty, so no file is renamed or reported. -/
theorem c10_update_format (w : Workflow) (photoOf : Str → Photo)
    (rawPathExists : Bool) (fsExists : Str → Bool)
    (entries : List (Str × Str)) (filename : Str)
    (_hfmt : (filename.take 8).all Char.isDigit = true) :
    oldFormatRegexMatch filename 2 = none ∧
    ∀ r, updateFormat w photoOf rawPathExists fsExists entries = .ok r →
      r = [] := by
  refine ⟨oldFormatRegexMatch_at_two _, ?_⟩
  intro r hr
  unfold updateFormat at hr
  by_cases hraw : rawPathExists = true
  · rw [if_pos hraw, updateFormatGo_skips] at hr
    exact (Except.ok.inj hr).symm
  · rw [if_neg hraw] at hr
    exact absurd hr (by simp)

/-- Witness for C10 at a concrete old-format filename (eight-digit date
prefix) and a concrete one-file directory walk. -/
theorem c10_update_format_witness :
    ((filenameC10.take 8).all Char.isDigit = true) ∧
    oldFormatRegexMatch filenameC10 2 = none ∧
    updateFormat wStd photoOfStd true (fun _ => false)
      [("R:/2023".toList, filenameC10)] = .ok [] := by
  have h := c10_update_format wStd photoOfStd true (fun _ => false)
    [("R:/2023".toList, filenameC10)] filenameC10 (by decide)
  exact ⟨by decide, h.1, rfl⟩

lemma yearStr_length (p : Photo) : (yearStr p).length = 4 := by
  unfold yearStr
  cases p.date with
  | none => decide
  | some dt => rfl

lemma dateStr_length (p : Photo) : (dateStr p).length = 10 := by
  unfold dateStr
  cases p.date with
  | none => decide
  | some dt => simp [pad4, pad2]

lemma datedPath_length (w : Workflow) (p : Photo) (fn : Str) :
    (datedPath w p fn).length = w.raw_path.length + 17 + fn.length := by
  have h1 : (("/".toList : Str)).length = 1 := rfl
  simp [datedPath, List.length_append, yearStr_length, dateStr_length, h1]
  omega

/-- C1 (amended): `generate_path` as written always fails with the
`AttributeError` raised by its `generate_name(photo)` call (default
`properties=None`); the remaining length-selection logic, applied to any
generated full and short names, raises `ValueError` exactly when the budget
`254 - len(raw_path) - len(extension) - 4 - 16` is below one, and otherwise
returns the dated path built from the full name when it fits the budget,
else the short name, else the short name truncated to the budget with the
`---.` marker and the extension — and the resulting total path length is at
most 251 bytes in the untruncated cases but exactly 255 bytes (not at most
254) in the truncation case, because the budget accounts for 20 bytes of
fixed overhead while the assembled path inserts 21. -/
theorem c1_generate_path (w : Workflow) (p : Photo) (fullName shortName : Str) :
    generatePath w p = .error .attributeError ∧
    (pathBuffer w p < 1 →
      pathLogic w p fullName shortName = .error .valueError) ∧
    (1 ≤ pathBuffer w p → (fullName.length : Int) ≤ pathBuffer w p →
      pathLogic w p fullName shortName = .ok (datedPath w p fullName) ∧
        (datedPath w p fullName).length ≤ 251) ∧
    (1 ≤ pathBuffer w p → pathBuffer w p < (fullName.length : Int) →
        (shortName.length : Int) ≤ pathBuffer w p →
      pathLogic w p fullName shortName = .ok (datedPath w p shortName) ∧
        (datedPath w p shortName).length ≤ 251) ∧
    (1 ≤ pathBuffer w p → pathBuffer w p < (fullName.length : Int) →
        pathBuffer w p < (shortName.length : Int) →
      pathLogic w p fullName shortName =
          .ok (datedPath w p (truncName w p shortName)) ∧
        (datedPath w p (truncName w p shortName)).length = 255) := by
  have hbuf : pathBuffer w p =
      254 - (w.raw_path.length : Int) - (p.extension.length : Int) - 4 - 16 :=
    rfl
  refine ⟨rfl, ?_, ?_, ?_, ?_⟩
  · intro h
    rw [pathLogic, if_pos h]
  · intro h1 h2
    constructor
    · rw [pathLogic, if_neg (by omega), if_pos h2]
    · rw [datedPath_length]
      omega
  · intro h1 h2 h3
    constructor
    · rw [pathLogic, if_neg (by omega), if_neg (by omega), if_pos h3]
    · rw [datedPath_length]
      omega
  · intro h1 h2 h3
    constructor
    · rw [pathLogic, if_neg (by omega), if_neg (by omega), if_neg (by omega)]
    · rw [datedPath_length]
      have h4 : (("---.".toList : Str)).length = 4 := rfl
      have h5 : (shortName.take (pathBuffer w p).toNat).length =
          min (pathBuffer w p).toNat shortName.length := List.length_take _ _
      simp [truncName, List.length_append, h4, h5]
      omega

/-- Counterexample for C1: with a 230-byte archive root the budget is one
(positive, so no path-too-long error is due), yet `generate_path` raises
`AttributeError` instead of returning a path, and its length logic — fed an
eleven-byte full name and a seven-byte short name — produces a path of 255
bytes, exceeding the claimed 254-byte bound. -/
theorem c1_generate_path_cex :
    pathBuffer wC1 pC1 = 1 ∧
    generatePath wC1 pC1 = .error .attributeError ∧
    Except.map List.length (pathLogic wC1 pC1 fullC1 shortC1) = .ok 255 := by
  refine ⟨by decide, rfl, rfl⟩

/-- Witness for C1 at the 230-byte archive root: the truncation branch is
taken and yields a path of exactly 255 bytes. -/
theorem c1_generate_path_witness :
    generatePath wC1 pC1 = .error .attributeError ∧
    1 ≤ pathBuffer wC1 pC1 ∧
    pathLogic wC1 pC1 fullC1 shortC1 =
      .ok (datedPath wC1 pC1 (truncName wC1 pC1 shortC1)) ∧
    (datedPath wC1 pC1 (truncName wC1 pC1 shortC1)).length = 255 := by
  have h := c1_generate_path wC1 pC1 fullC1 shortC1
  have h5 := h.2.2.2.2 (by decide) (by decide) (by decide)
  exact ⟨h.1, by decide, h5.1, h5.2⟩

lemma range'_find?_eq (p : Nat → Bool) :
    ∀ (len s i : Nat), s ≤ i → i < s + len → p i = true →
      (∀ j, s ≤ j → j < i → p j = false) →
      (List.range' s len).find? p = some i := by
  intro len
  induction len with
  | zero => intro s i h1 h2 _ _; omega
  | succ k ih =>
    intro s i h1 h2 h3 h4
    rw [List.range'_succ, List.find?_cons]
    by_cases hs : s = i
    · subst hs
      simp [h3]
    · have hps : p s = false := h4 s le_rfl (by omega)
      simp only [hps]
      exact ih (s + 1) i (by omega) (by omega) h3
        (fun j hj1 hj2 => h4 j (by omega) hj2)

lemma findDisambig_first (occupied : Str → Bool) (base : Str) (i : Nat)
    (h1 : 1 ≤ i) (h2 : i ≤ 999)
    (hfree : occupied (disCand base i) = false)
    (hbusy : ∀ j, 1 ≤ j → j < i → occupied (disCand base j) = true) :
    findDisambig occupied base = disCand base i := by
  unfold findDisambig
  rw [range'_find?_eq (fun n => ! occupied (disCand base n)) 999 1 i h1
    (by omega) (by simp [hfree]) (fun j hj1 hj2 => by simp [hbusy j hj1 hj2])]

/-- C3 (amended): `organize_files` as written raises `AttributeError`
(through `generate_path → generate_name` with `properties=None`) before
processing any staged file, so the two-file reorganization scenario never
completes; its collision loop, taken on its own with a canonical path
occupied by different content, chooses the first free candidate of the form
`f'{path} (i)'` for i growing from 1 — a numeric disambiguator appended
after the extension, not inserted before it. -/
theorem c3_reorganizer (w : Workflow) (photoOf : Str → Photo)
    (fs : Str → Option Str) (f : Str) (rest : List Str)
    (occupied : Str → Bool) (base : Str) (i : Nat)
    (h1 : 1 ≤ i) (h2 : i ≤ 999)
    (hfree : occupied (disCand base i) = false)
    (hbusy : ∀ j, 1 ≤ j → j < i → occupied (disCand base j) = true) :
    organizeFiles w photoOf true fs (f :: rest) = .error .attributeError ∧
    findDisambig occupied base = disCand base i := by
  constructor
  · simp [organizeFiles, organizeFilesGo, generatePath_attrErr]
  · exact findDisambig_first occupied base i h1 h2 hfree hbusy

/-- Counterexample for C3: with the canonical path
`20230805_a7r4_0001.arw` occupied (by different content), the collision
loop produces `20230805_a7r4_0001.arw (1)` — the disambiguator lands after
the extension — which differs from the claimed before-the-extension form
`20230805_a7r4_0001 (1).arw`; and `organize_files` on a one-file staging
area does not even reach the loop, stopping with `AttributeError`. -/
theorem c3_reorganizer_cex :
    findDisambig occC3 baseC3 = baseC3 ++ " (1)".toList ∧
    baseC3 ++ " (1)".toList ≠ "20230805_a7r4_0001 (1).arw".toList ∧
    organizeFiles wStd photoOfStd true (fun _ => none)
      ["R:/Import Bucket/a.arw".toList] = .error .attributeError := by
  refine ⟨rfl, by decide, rfl⟩

/-- Witness for C3: with the canonical path and its first candidate both
occupied, the loop settles on the second candidate. -/
theorem c3_reorganizer_witness :
    occC3' (disCand baseC3 2) = false ∧
    organizeFiles wStd photoOfStd true (fun _ => none)
      ["R:/Import Bucket/b.arw".toList] = .error .attributeError ∧
    findDisambig occC3' baseC3 = disCand baseC3 2 := by
  have h := c3_reorganizer wStd photoOfStd (fun _ => none)
    "R:/Import Bucket/b.arw".toList [] occC3' baseC3 2 (by decide) (by decide)
    (by decide)
    (fun j hj1 hj2 => by
      have hj : j = 1 := by omega
      subst hj
      decide)
  exact ⟨by decide, h.1, h.2⟩

lemma dotToSpace_append (a b : Str) :
    dotToSpace (a ++ b) = dotToSpace a ++ dotToSpace b := by
  simp [dotToSpace]

/-- C4 (amended): the `short=true` name depends only on the merged sequence
number, exposure fields, ISO, shutter speed and extension — it omits the
date, camera and lens that additionally appear in the full name — but it
retains the ISO and shutter-speed labelled fields: the produced name always
decomposes around the literal `ISO_` and `SS` labels with the ISO and
shutter-speed values in place. -/
theorem c4_short_name (p p' : Photo) (o o' : Overrides)
    (h1 : (mergedProps p o).num = (mergedProps p' o').num)
    (h2 : (mergedProps p o).eb = (mergedProps p' o').eb)
    (h3 : (mergedProps p o).ev = (mergedProps p' o').ev)
    (h4 : (mergedProps p o).b = (mergedProps p' o').b)
    (h5 : (mergedProps p o).iso = (mergedProps p' o').iso)
    (h6 : (mergedProps p o).ss = (mergedProps p' o').ss)
    (h7 : (mergedProps p o).ext = (mergedProps p' o').ext) :
    generateName p true (some o) = generateName p' true (some o') ∧
    generateName p true (some o) =
      .ok (dotToSpace ((mergedProps p o).num ++ "_".toList ++
          (mergedProps p o).eb ++ "EB_".toList ++ (mergedProps p o).ev ++
          "EV_".toList ++ (mergedProps p o).b ++ "B_".toList ++
          (mergedProps p o).iso) ++
        "ISO_".toList ++ dotToSpace (mergedProps p o).ss ++ "SS".toList ++
        ".".toList ++ (mergedProps p o).ext) := by
  have hlit : dotToSpace ("ISO_".toList) = "ISO_".toList := rfl
  have hlit2 : dotToSpace ("SS".toList) = "SS".toList := rfl
  constructor
  · rw [generateName, generateName, generateNameProps, generateNameProps,
      if_pos rfl, if_pos rfl, shortCore, shortCore, h1, h2, h3, h4, h5, h6, h7]
  · rw [generateName, generateNameProps, if_pos rfl, shortCore]
    simp only [dotToSpace_append, hlit, hlit2, List.append_assoc]

/-- Counterexample for C4: on a photo with ISO 800 and shutter speed 500
the short name is `1234_-2EB_10EV_8B_800ISO_500SS.arw` — the ISO and
shutter-speed fields the claim says are omitted are present (decomposition
shown around the `ISO` label). -/
theorem c4_short_name_cex :
    generateName pC4 true (some emptyOverrides) =
      .ok ("1234_-2EB_10EV_8B_800".toList ++ "ISO".toList ++
        "_500SS.arw".toList) := rfl

/-- Witness for C4: changing only date, camera and lens between `pC4` and
`pC4'` leaves the short name unchanged, and the name decomposes around the
`ISO_` label. -/
theorem c4_short_name_witness :
    generateName pC4 true (some emptyOverrides) =
      generateName pC4' true (some emptyOverrides) ∧
    generateName pC4 true (some emptyOverrides) =
      .ok (dotToSpace ((mergedProps pC4 emptyOverrides).num ++ "_".toList ++
          (mergedProps pC4 emptyOverrides).eb ++ "EB_".toList ++
          (mergedProps pC4 emptyOverrides).ev ++ "EV_".toList ++
          (mergedProps pC4 emptyOverrides).b ++ "B_".toList ++
          (mergedProps pC4 emptyOverrides).iso) ++
        "ISO_".toList ++ dotToSpace (mergedProps pC4 emptyOverrides).ss ++
        "SS".toList ++ ".".toList ++ (mergedProps pC4 emptyOverrides).ext) :=
  c4_short_name pC4 pC4' emptyOverrides emptyOverrides rfl rfl rfl rfl rfl rfl
    rfl

lemma count_appendParts (q : CopyQueue) (p : Photo) (root : Str)
    (e : Str × Str) :
    (appendParts q p root).count e =
      q.count e + (if (root, p.path) = e then 1 else 0) := by
  simp [appendParts, List.count_append, List.count_cons, List.count_nil,
    beq_iff_eq]

lemma queueFilesGo_count (w : Workflow) (isJpg : Str → Bool)
    (fs : Str → Option Str) :
    ∀ (files : List Photo) (q0 q : CopyQueue) (e : Str × Str),
      queueFilesGo w isJpg fs files q0 = .ok q →
      q.count e = q0.count e +
        (files.map (fun p => contrib w isJpg p e)).sum := by
  intro files
  induction files with
  | nil =>
    intro q0 q e h
    simp only [queueFilesGo] at h
    rw [Except.ok.injEq] at h
    subst h
    simp
  | cons p rest ih =>
    intro q0 q e h
    simp only [queueFilesGo] at h
    by_cases hraw : p.extension = w.raw_extension
    · rw [if_pos hraw, generatePath_attrErr] at h
      simp at h
    · rw [if_neg hraw] at h
      by_cases hjpg : isJpg p.extension = true
      · rw [if_pos hjpg] at h
        have hq := ih _ q e h
        rw [hq, count_appendParts, count_appendParts, List.map_cons,
          List.sum_cons]
        simp only [contrib, if_neg hraw, if_pos hjpg]
        omega
      · rw [if_neg hjpg] at h
        have hq := ih _ q e h
        rw [hq, List.map_cons, List.sum_cons]
        simp [contrib, hraw, hjpg]

lemma queueFilesGo_no_raw (w : Workflow) (isJpg : Str → Bool)
    (fs : Str → Option Str) :
    ∀ (files : List Photo) (q0 q : CopyQueue),
      queueFilesGo w isJpg fs files q0 = .ok q →
      ∀ p ∈ files, p.extension ≠ w.raw_extension := by
  intro files
  induction files with
  | nil => intro q0 q _ p hp; cases hp
  | cons x rest ih =>
    intro q0 q h p hp
    simp only [queueFilesGo] at h
    by_cases hraw : x.extension = w.raw_extension
    · rw [if_pos hraw, generatePath_attrErr] at h
      simp at h
    · rw [if_neg hraw] at h
      rcases List.mem_cons.mp hp with rfl | hp'
      · exact hraw
      · by_cases hjpg : isJpg x.extension = true
        · rw [if_pos hjpg] at h
          exact ih _ q h p hp'
        · rw [if_neg hjpg] at h
          exact ih _ q h p hp'

lemma contrib_path_ne (w : Workflow) (isJpg : Str → Bool) (x : Photo)
    (e : Str × Str) (h : e.2 ≠ x.path) : contrib w isJpg x e = 0 := by
  have g1 : ((w.jpg_path, x.path) : Str × Str) ≠ e :=
    fun he => h (by rw [← he])
  have g2 : ((w.backup_path, x.path) : Str × Str) ≠ e :=
    fun he => h (by rw [← he])
  by_cases h1 : x.extension = w.raw_extension
  · simp [contrib, h1]
  · by_cases h2 : isJpg x.extension = true
    · simp [contrib, h1, h2, g1, g2]
    · simp [contrib, h1, h2]

lemma sum_contrib (w : Workflow) (isJpg : Str → Bool) :
    ∀ (files : List Photo) (p : Photo),
      (files.map Photo.path).Nodup → p ∈ files →
      ∀ e : Str × Str, e.2 = p.path →
      (files.map (fun x => contrib w isJpg x e)).sum = contrib w isJpg p e := by
  intro files
  induction files with
  | nil => intro p _ hp; cases hp
  | cons x rest ih =>
    intro p hnd hp e he
    rw [List.map_cons] at hnd
    obtain ⟨hx, hnd'⟩ := List.nodup_cons.mp hnd
    rw [List.map_cons, List.sum_cons]
    rcases List.mem_cons.mp hp with rfl | hp'
    · have hz : (rest.map (fun y => contrib w isJpg y e)).sum = 0 := by
        apply List.sum_eq_zero
        intro z hz
        rw [List.mem_map] at hz
        obtain ⟨y, hy, rfl⟩ := hz
        apply contrib_path_ne
        rw [he]
        intro hxy
        exact hx (List.mem_map.mpr ⟨y, hy, hxy.symm⟩)
      rw [hz]
      simp
    · have hx0 : contrib w isJpg x e = 0 := by
        apply contrib_path_ne
        rw [he]
        intro hpx
        exact hx (List.mem_map.mpr ⟨p, hp', hpx⟩)
      rw [hx0, ih p hnd' hp' e he]
      simp

/-- C5: whenever queue construction completes, every walked source file
with the configured raw extension or a recognized jpeg extension appears
exactly once in the list queued for the backup destination, and every other
file (logged as an unknown type and skipped by the `continue` at
workflow.py:438) appears in no destination's list.  The hypotheses record
that the walked paths are distinct (as yielded by `os.walk`) and that the
jpg and backup roots are distinct directories. -/
theorem c5_queue_backup (w : Workflow) (isJpg : Str → Bool)
    (fs : Str → Option Str) (files : List Photo) (q : CopyQueue)
    (hok : queueFiles w isJpg fs files = .ok q)
    (hnd : (files.map Photo.path).Nodup)
    (hjb : w.jpg_path ≠ w.backup_path) :
    ∀ p ∈ files,
      ((p.extension = w.raw_extension ∨ isJpg p.extension = true) →
        queueCount q w.backup_path p.path = 1) ∧
      ((p.extension ≠ w.raw_extension ∧ isJpg p.extension = false) →
        ∀ root, queueCount q root p.path = 0) := by
  rw [queueFiles] at hok
  intro p hp
  have hnr := queueFilesGo_no_raw w isJpg fs files [] q hok p hp
  constructor
  · intro hor
    have hjpg : isJpg p.extension = true := by
      rcases hor with hraw | hjpg
      · exact absurd hraw hnr
      · exact hjpg
    have hc := queueFilesGo_count w isJpg fs files [] q
      (w.backup_path, p.path) hok
    rw [queueCount, hc, sum_contrib w isJpg files p hnd hp _ rfl]
    have hone : contrib w isJpg p (w.backup_path, p.path) = 1 := by
      have g1 : ((w.jpg_path, p.path) : Str × Str) ≠
          (w.backup_path, p.path) := by
        intro hcontra
        exact hjb (congrArg Prod.fst hcontra)
      simp [contrib, hnr, hjpg, g1]
    rw [hone]
    simp
  · intro hu root
    have hc := queueFilesGo_count w isJpg fs files [] q (root, p.path) hok
    rw [queueCount, hc, sum_contrib w isJpg files p hnd hp _ rfl]
    simp [contrib, hu.1, hu.2]

/-- Witness for C5 on a two-file volume: the jpeg file lands exactly once in
the backup list, while the unknown-type file appears in no list. -/
theorem c5_queue_backup_witness :
    queueFiles wStd isJpgStd (fun _ => none) [pJpg5, pUnk5] = .ok qC5 ∧
    queueCount qC5 wStd.backup_path pJpg5.path = 1 ∧
    ∀ root, queueCount qC5 root pUnk5.path = 0 := by
  have hok : queueFiles wStd isJpgStd (fun _ => none) [pJpg5, pUnk5] =
      .ok qC5 := rfl
  have h := c5_queue_backup wStd isJpgStd (fun _ => none) [pJpg5, pUnk5] qC5
    hok (by decide) (by decide)
  refine ⟨hok, ?_, ?_⟩
  · exact (h pJpg5 (by simp)).1 (Or.inr (by decide))
  · intro root
    exact (h pUnk5 (by simp)).2 ⟨by decide, by decide⟩ root

end ImageBackup
